import Mathlib

/-!
Verification of the sentiment-classification core of the repository
`yugal3011/sentiment_analysis`.

The pipeline under study is `SentimentAnalyzer.analyze` in
`backend/sentiment_analyzer.py`.  It is embedded shallowly below:

* strings are Lean `String`s; Python's `text.lower()` is modelled by the
  ASCII fold `asciiLower` (the spec fixes "no locale dependence beyond
  ASCII lowercase folding"); Python's `ind in text` substring test is
  `containsSub`;
* the optional transformer model (`self.model`) is a parameter of type
  `Model = Option (String → Option ModelOut)`: the outer `Option` is
  availability of the capability, the inner `Option` models an inference
  call that raises (`none` = exception caught by the `except` block);
* the three indicator lists of `_setup_keyword_indicators`, the inline
  `mixed_indicators`, `extreme_negative_words`, `success_words`,
  `limitation_words` lists and the inline hard-negative list are
  transcribed verbatim;
* the legacy lexicons of `score_to_label` in `backend/app.py` are
  transcribed as `app_negative_indicators` etc. for the lockstep claim.
-/

/-- Bool test: `needle` occurs as a contiguous infix of `hay` (lists of
characters).  The empty needle occurs in every list, matching Python's
`"" in s == True`. -/
def isInfixList (needle : List Char) : List Char → Bool
  | [] => needle.isEmpty
  | c :: rest => needle.isPrefixOf (c :: rest) || isInfixList needle rest

/-- Python's `needle in hay` substring containment on strings. -/
def containsSub (needle hay : String) : Bool :=
  isInfixList needle.data hay.data

/-- Python's `text.lower()` restricted to ASCII folding (per spec §4.1:
construction is language-neutral, no locale dependence beyond ASCII
lowercase folding).  `Char.toLower` is exactly the ASCII fold. -/
def asciiLower (s : String) : String :=
  ⟨s.data.map Char.toLower⟩

/-- Python's `not text or not text.strip()`: the string is empty or
consists only of whitespace characters. -/
def isBlank (s : String) : Bool :=
  s.data.all Char.isWhitespace

/-- Python's `sum(1 for ind in inds if ind in text_lower)`. -/
def countMatches (inds : List String) (t : String) : Nat :=
  (inds.filter (fun i => containsSub i t)).length

/-- Python's `any(ind in text_lower for ind in ws)`. -/
def hasAnyOf (ws : List String) (t : String) : Bool :=
  ws.any (fun w => containsSub w t)

/-- `self.negative_indicators` from `_setup_keyword_indicators`
(`sentiment_analyzer.py`, lines 74-148). -/
def negative_indicators : List String :=
  ["weak", "weaker", "weakest", "weakness", "weaknesses",
   "poor", "poorer", "poorest", "poorly",
   "bad", "worse", "worst", "badly",
   "fail", "failing", "failed", "failure", "fails",
   "lack", "lacking", "lacks", "lacked",
   "insufficient", "inadequate", "deficient",
   "unable", "incapable", "incompetent",
   "struggle", "struggling", "struggles", "struggled",
   "difficult", "difficulty", "difficulties",
   "confused", "confusing", "confusion",
   "lost", "unclear", "uncertain",
   "needs improvement", "needs to improve", "must improve",
   "needs work", "needs attention", "requires improvement",
   "needs to learn", "must learn", "should learn",
   "not good", "not great", "not strong",
   "no understanding", "no knowledge", "no grasp",
   "below average", "below expectations", "subpar",
   "disappointed", "disappointing", "frustrating",
   "problem", "problematic", "issue", "issues",
   "error", "errors", "mistake", "mistakes",
   "wrong", "incorrect", "inaccurate"]

/-- `self.positive_indicators` from `_setup_keyword_indicators`
(`sentiment_analyzer.py`, lines 151-220). -/
def positive_indicators : List String :=
  ["excellent", "outstanding", "exceptional", "exemplary",
   "great", "greater", "greatest", "amazing", "wonderful",
   "strong", "stronger", "strongest", "solid",
   "impressive", "remarkable", "notable", "noteworthy",
   "proficient", "skilled", "competent", "capable",
   "master", "mastery", "expert", "expertise",
   "excel", "excels", "excelled", "excelling",
   "succeed", "succeeds", "succeeded", "succeeding",
   "achieve", "achieves", "achieved", "achievement",
   "progress", "progressing", "progressed",
   "improve", "improves", "improved", "improving",
   "thorough", "comprehensive", "complete", "detailed",
   "deep", "deeper", "deepest", "depth",
   "understand", "understands", "understanding", "understood",
   "innovative", "creative", "original",
   "efficient", "effective", "productive",
   "professional", "polished", "refined",
   "above average", "exceeds expectations", "surpasses"]

/-- `self.neutral_indicators` from `_setup_keyword_indicators`
(`sentiment_analyzer.py`, lines 223-251). -/
def neutral_indicators : List String :=
  ["okay", "ok", "fine", "acceptable", "satisfactory",
   "average", "typical", "normal", "standard", "moderate",
   "mixed", "varied", "inconsistent",
   "some", "sometimes", "occasionally",
   "generally", "usually", "mostly",
   "progressing", "developing", "learning",
   "attentive", "participates", "engaged",
   "meets expectations", "on track"]

/-- `mixed_indicators` local list in `analyze`
(`sentiment_analyzer.py`, lines 283-292). -/
def mixed_indicators : List String :=
  ["but", "however", "though", "although", "yet", "while", "without",
   "except"]

/-- `extreme_negative_words` local list in `analyze`
(`sentiment_analyzer.py`, lines 299-312). -/
def extreme_negative_words : List String :=
  ["terrible", "awful", "horrible", "dreadful", "failed", "failing",
   "very poor", "very bad", "extremely weak", "completely lacking",
   "no understanding at all", "totally confused"]

/-- `success_words` local list in `analyze`
(`sentiment_analyzer.py`, lines 333-340). -/
def success_words : List String :=
  ["solved", "completed", "finished", "achieved", "passed", "answered"]

/-- `limitation_words` local list in `analyze`
(`sentiment_analyzer.py`, lines 341-348). -/
def limitation_words : List String :=
  ["didn\u0027t", "did not", "couldn\u0027t", "could not", "without",
   "not"]

/-- The inline hard-negative list `["fail", "poor", "bad", "weak"]` of the
success-with-limitation check (`sentiment_analyzer.py`, line 355). -/
def hard_negative_words : List String :=
  ["fail", "poor", "bad", "weak"]

/-- Sentiment label of a classification result. -/
inductive Label where
  | Positive
  | Negative
  | Neutral
deriving DecidableEq, Repr

/-- Raw output of the statistical model: `result["label"]` (the strings
`"POSITIVE"` / `"NEGATIVE"` for the wrapped binary classifier) and
`result["score"]`, its confidence. -/
structure ModelOut where
  label : String
  score : ℚ
deriving DecidableEq, Repr

/-- The optional statistical model capability.  `none` = capability
absent (`self.model is None`); `some f` = present, and `f s = none`
models an inference call on `s` that raises (caught by the handler at
line 420 of `sentiment_analyzer.py`). -/
abbrev Model := Option (String → Option ModelOut)

/-- The `(label, confidence, details["method"])` projection of the
triple returned by `analyze`. -/
structure AnalysisResult where
  label : Label
  confidence : ℚ
  method : String
deriving DecidableEq, Repr

/-- Python's `text[:512]`: the transformer stage truncates the original
(case-preserved) text to the first 512 characters before inference
(`sentiment_analyzer.py`, line 369). -/
def modelInput (text : String) : String :=
  ⟨text.data.take 512⟩

/-- `self.model_confidence_threshold` set in `__init__`
(`sentiment_analyzer.py`, line 38); stored but never consulted by
`analyze`. -/
def model_confidence_threshold : ℚ := 0.65

/-- The balanced-structure gate condition (`sentiment_analyzer.py`,
lines 293-329): a mixed-structure marker is present and fewer than 2
extreme-negative markers occur. -/
def balancedFires (tl : String) : Bool :=
  hasAnyOf mixed_indicators tl
    && decide (countMatches extreme_negative_words tl < 2)

/-- The success-with-limitation gate condition (`sentiment_analyzer.py`,
lines 349-356): a success word and a limitation word are present and no
hard-negative marker occurs. -/
def successLimFires (tl : String) : Bool :=
  hasAnyOf success_words tl && hasAnyOf limitation_words tl
    && !hasAnyOf hard_negative_words tl

/-- The keyword-backup tail of `analyze` (`sentiment_analyzer.py`,
lines 424-464): Method 2 (keyword backup) and Method 3 (default
neutral). -/
def stageB (negative_count positive_count neutral_count : Nat) :
    AnalysisResult :=
  if 3 ≤ negative_count then
    ⟨.Negative, 0.85, "keyword_backup_strong"⟩
  else if 3 ≤ positive_count then
    ⟨.Positive, 0.85, "keyword_backup_strong"⟩
  else if 3 ≤ neutral_count then
    ⟨.Neutral, 0.75, "keyword_backup_neutral"⟩
  else
    ⟨.Neutral, 0.50, "default_neutral"⟩

/-- Shallow embedding of `SentimentAnalyzer.analyze`
(`sentiment_analyzer.py`, lines 253-464), parameterised by the optional
model capability. -/
def analyze (model : Model) (text : String) : AnalysisResult :=
  if isBlank text then ⟨.Neutral, 0, "empty_text"⟩
  else
    let text_lower := asciiLower text
    let negative_count := countMatches negative_indicators text_lower
    let positive_count := countMatches positive_indicators text_lower
    let neutral_count := countMatches neutral_indicators text_lower
    if balancedFires text_lower then
      ⟨.Neutral, 0.85, "balanced_structure_detected"⟩
    else if successLimFires text_lower then
      ⟨.Neutral, 0.80, "success_with_limitation"⟩
    else
      match model with
      | some f =>
        match f (modelInput text) with
        | some out =>
          if out.label = "POSITIVE" ∧ 4 ≤ negative_count then
            ⟨.Negative, 0.90, "keyword_strong_override"⟩
          else if out.label = "NEGATIVE" ∧ 4 ≤ positive_count then
            ⟨.Positive, 0.90, "keyword_strong_override"⟩
          else if out.label = "POSITIVE" then
            ⟨.Positive, out.score, "transformer_primary"⟩
          else if out.label = "NEGATIVE" then
            ⟨.Negative, out.score, "transformer_primary"⟩
          else
            stageB negative_count positive_count neutral_count
        | none => stageB negative_count positive_count neutral_count
      | none => stageB negative_count positive_count neutral_count

/-- `negative_indicators` local list of the legacy `score_to_label` in
`backend/app.py` (lines 127-287). -/
def app_negative_indicators : List String :=
  ["weak", "weaker", "weakest", "weakness", "weaknesses",
   "poor", "poorer", "poorest", "poorly",
   "bad", "worse", "worst", "badly",
   "lack", "lacking", "lacks", "lacked",
   "insufficient", "insufficiently", "inadequate", "inadequately",
   "no knowledge", "no understanding", "no idea", "no clarity",
   "no grasp",
   "does not know", "doesnt know", "don\u0027t know", "do not know",
   "does not understand", "doesnt understand", "don\u0027t understand",
   "do not understand",
   "not clear", "not clarity", "unclear", "unclearly",
   "not good", "not great", "not well", "not able", "not capable",
   "not understanding", "not comprehending", "not grasping",
   "cannot", "can\u0027t", "unable", "incapable",
   "failing", "failed", "fail", "failure", "fails",
   "needs to improve", "needs improvement", "need improvement",
   "needs to learn", "need to learn", "needs learning",
   "needs work", "needs attention", "needs focus",
   "requires improvement", "require improvement",
   "must improve", "should improve", "has to improve",
   "needs development", "needs training", "needs practice",
   "struggling", "struggle", "struggles", "struggled",
   "difficult", "difficulty", "difficulties", "difficultly",
   "hard time", "tough time", "challenging",
   "confused", "confusing", "confusion", "confuses",
   "lost", "losing", "clueless",
   "terrible", "terribly", "awful", "awfully",
   "horrible", "horribly", "dreadful", "dreadfully",
   "disappointing", "disappointed", "disappointment", "disappoints",
   "unsatisfactory", "unsatisfying", "dissatisfying",
   "substandard", "below standard", "below average", "below par",
   "very low", "very poor", "very weak", "extremely poor",
   "unacceptable", "unacceptably",
   "mistake", "mistakes", "error", "errors", "wrong",
   "problem", "problems", "issue", "issues",
   "deficient", "deficiency", "deficiencies",
   "incomplete", "incompletely", "unfinished",
   "missing", "missed", "misses",
   "forgotten", "forgot", "forgets",
   "unprofessional", "unprofessionally",
   "ineffective", "ineffectively", "inefficient", "inefficiently",
   "careless", "carelessly", "sloppy", "sloppily",
   "lazy", "laziness", "neglect", "neglected", "neglectful",
   "mediocre", "average at best"]

/-- `positive_indicators` local list of the legacy `score_to_label` in
`backend/app.py` (lines 289-420). -/
def app_positive_indicators : List String :=
  ["excellent", "excellently", "excellence",
   "outstanding", "outstandingly",
   "exceptional", "exceptionally",
   "remarkable", "remarkably",
   "superb", "superbly",
   "brilliant", "brilliantly", "brilliance",
   "perfect", "perfectly", "perfection",
   "flawless", "flawlessly", "impeccable", "impeccably",
   "great", "greater", "greatest", "greatly",
   "amazing", "amazingly", "wonderful", "wonderfully",
   "fantastic", "fantastically", "fabulous", "fabulously",
   "terrific", "terrifically",
   "impressive", "impressively", "impressed",
   "incredible", "incredibly", "phenomenal", "phenomenally",
   "strong", "stronger", "strongest", "strongly",
   "good", "better", "best", "well",
   "very good", "really good", "pretty good",
   "solid", "solidly",
   "effective", "effectively", "efficient", "efficiently",
   "skilled", "skillful", "skillfully",
   "talented", "talent", "capable", "capability",
   "competent", "competently",
   "improved", "improving", "improvement", "improves",
   "progressed", "progressing", "progress", "progresses",
   "excelled", "excelling", "excels",
   "succeeded", "succeeding", "success", "successful", "successfully",
   "achieved", "achieving", "achievement", "achieves",
   "mastered", "mastering", "mastery", "masters",
   "accomplished", "accomplishing", "accomplishment", "accomplishes",
   "doing well", "doing great", "doing excellent",
   "good work", "great work", "excellent work",
   "well done", "nicely done", "perfectly done",
   "strong performance", "stellar performance", "top performance",
   "keeps up", "keep it up", "maintain",
   "thorough", "thoroughly", "comprehensive", "comprehensively",
   "dedicated", "dedication", "committed", "commitment",
   "professional", "professionally", "professionalism",
   "quality", "high quality", "top quality"]

/-- `neutral_indicators` local list of the legacy `score_to_label` in
`backend/app.py` (lines 423-496). -/
def app_neutral_indicators : List String :=
  ["okay", "ok", "fine", "acceptable", "satisfactory",
   "average", "typical", "normal", "standard", "regular",
   "moderate", "moderately", "fair", "fairly",
   "reasonable", "reasonably", "adequate", "adequately",
   "mixed", "varied", "varies", "inconsistent", "variable",
   "some", "sometimes", "occasionally",
   "partial", "partially", "both",
   "however", "but", "although", "yet", "though",
   "certain areas", "some aspects", "in parts", "at times",
   "shows potential", "room for", "could be", "might be",
   "generally", "usually", "mostly", "often",
   "progressing", "developing", "learning",
   "working on", "building", "steady",
   "consistent effort", "making effort", "tries", "attempting",
   "attentive", "participates", "engaged", "present", "involved",
   "follows", "completes", "submits", "attends", "responds",
   "basic understanding", "fundamental grasp", "foundational knowledge",
   "meets expectations", "on track", "keeping pace"]

/-- Shallow embedding of the legacy `score_to_label` in `backend/app.py`
(lines 125-516).  Python's `text.lower() if text else ""` is the empty
string for empty `text`; the function has no final `else`, so a score in
`[-0.1, 0.1]` with no indicator match falls off the end (Python returns
`None`), modelled as `none`. -/
def app_score_to_label (score : ℚ) (text : String) : Option String :=
  let text_lower := if text = "" then "" else asciiLower text
  if hasAnyOf app_negative_indicators text_lower then some "Negative"
  else if hasAnyOf app_positive_indicators text_lower then some "Positive"
  else if hasAnyOf app_neutral_indicators text_lower then some "Neutral"
  else if (0.1 : ℚ) < score then some "Positive"
  else if score < (-0.1 : ℚ) then some "Negative"
  else none

example :
    analyze none "Good communication but struggles with deadlines"
      = ⟨.Neutral, 0.85, "balanced_structure_detected"⟩ := by with_unfolding_all decide

example :
    analyze none "" = ⟨.Neutral, 0, "empty_text"⟩ := by with_unfolding_all decide

example :
    analyze none "weak, poor, lacking, inadequate performance"
      = ⟨.Negative, 0.85, "keyword_backup_strong"⟩ := by with_unfolding_all decide

example :
    analyze none "The presentation happened on Tuesday"
      = ⟨.Neutral, 0.50, "default_neutral"⟩ := by with_unfolding_all decide

example :
    analyze none "terrible awful but completed the task without help"
      = ⟨.Neutral, 0.80, "success_with_limitation"⟩ := by with_unfolding_all decide

/-- `Char.ofNat` evaluates to the given code point when it is valid. -/
theorem toNat_ofNat_valid (m : Nat) (h : m.isValidChar) :
    (Char.ofNat m).toNat = m := by
  simp [Char.ofNat, dif_pos h, Char.ofNatAux, Char.toNat, UInt32.toNat,
    BitVec.toNat_ofNatLt]

/-- Code point of the ASCII lowercase fold of a character. -/
theorem toLower_toNat (c : Char) :
    (Char.toLower c).toNat =
      if 65 ≤ c.toNat ∧ c.toNat ≤ 90 then c.toNat + 32 else c.toNat := by
  unfold Char.toLower
  by_cases h : 65 ≤ c.toNat ∧ c.toNat ≤ 90
  · have hv : (c.toNat + 32).isValidChar := by
      left
      omega
    simp [h, toNat_ofNat_valid _ hv]
  · simp [h]

/-- Characters outside `A`-`Z` are fixed by the ASCII lowercase fold. -/
theorem toLower_eq_self (c : Char) (h : ¬(65 ≤ c.toNat ∧ c.toNat ≤ 90)) :
    Char.toLower c = c := by
  unfold Char.toLower
  simp [h]

/-- The ASCII lowercase fold is idempotent on characters. -/
theorem toLower_idem (c : Char) :
    Char.toLower (Char.toLower c) = Char.toLower c := by
  apply toLower_eq_self
  have h1 := toLower_toNat c
  by_cases h : 65 ≤ c.toNat ∧ c.toNat ≤ 90 <;> simp [h] at h1 <;> omega

/-- Characters are equal iff their code points are. -/
theorem char_eq_iff_toNat (c d : Char) : c = d ↔ c.toNat = d.toNat := by
  constructor
  · rintro rfl
    rfl
  · intro h
    apply Char.eq_of_val_eq
    exact UInt32.ext h

/-- Whitespace test expressed on code points. -/
theorem isWhitespace_iff (c : Char) :
    c.isWhitespace = true ↔
      c.toNat = 32 ∨ c.toNat = 9 ∨ c.toNat = 13 ∨ c.toNat = 10 := by
  have e1 : (' ').toNat = 32 := rfl
  have e2 : ('\t').toNat = 9 := rfl
  have e3 : ('\r').toNat = 13 := rfl
  have e4 : ('\n').toNat = 10 := rfl
  simp only [Char.isWhitespace, Bool.or_eq_true, decide_eq_true_eq,
    char_eq_iff_toNat, e1, e2, e3, e4]
  tauto

/-- The ASCII lowercase fold preserves whitespace-ness of a character. -/
theorem isWhitespace_toLower (c : Char) :
    (Char.toLower c).isWhitespace = c.isWhitespace := by
  by_cases h : 65 ≤ c.toNat ∧ c.toNat ≤ 90
  · have ht := toLower_toNat c
    rw [if_pos h] at ht
    have l1 : (Char.toLower c).isWhitespace = false := by
      rw [Bool.eq_false_iff, Ne, isWhitespace_iff]
      omega
    have l2 : c.isWhitespace = false := by
      rw [Bool.eq_false_iff, Ne, isWhitespace_iff]
      omega
    rw [l1, l2]
  · rw [toLower_eq_self c h]

/-- Lowercasing is idempotent on strings. -/
theorem asciiLower_idem (s : String) :
    asciiLower (asciiLower s) = asciiLower s := by
  unfold asciiLower
  congr 1
  rw [List.map_map]
  apply List.map_congr_left
  intro a _
  exact toLower_idem a

/-- Lowercasing preserves blankness. -/
theorem isBlank_asciiLower (s : String) :
    isBlank (asciiLower s) = isBlank s := by
  unfold isBlank asciiLower
  show (s.data.map Char.toLower).all Char.isWhitespace
      = s.data.all Char.isWhitespace
  induction s.data with
  | nil => rfl
  | cons c l ih => simp [List.all_cons, isWhitespace_toLower, ih]

/-- Every verdict of the keyword-backup tail carries one of the three
backup methods. -/
theorem stageB_method (n p u : Nat) :
    (stageB n p u).method = "keyword_backup_strong"
      ∨ (stageB n p u).method = "keyword_backup_neutral"
      ∨ (stageB n p u).method = "default_neutral" := by
  unfold stageB
  split_ifs <;> simp

/-- Every verdict of the keyword-backup tail has confidence in `[0,1]`. -/
theorem stageB_confidence (n p u : Nat) :
    0 ≤ (stageB n p u).confidence ∧ (stageB n p u).confidence ≤ 1 := by
  unfold stageB
  split_ifs <;> norm_num

/-- C9: on empty or whitespace-only input, `analyze` returns the
terminal verdict `(Neutral, 0.0, method="empty_text")`, for every state
of the model capability (in particular before and without any lexicon
count, gate test or model call), and no error is surfaced. -/
theorem C9_empty_text (m : Model) (t : String) (h : isBlank t = true) :
    analyze m t = ⟨.Neutral, 0, "empty_text"⟩ := by
  simp [analyze, h]

theorem C9_empty_text_witness :
    isBlank "  \t " = true
      ∧ analyze (some fun _ => some ⟨"POSITIVE", 1⟩) "  \t "
          = ⟨.Neutral, 0, "empty_text"⟩ :=
  ⟨by decide, C9_empty_text (some fun _ => some ⟨"POSITIVE", 1⟩) "  \t " (by decide)⟩

/-- C2: on non-blank input containing a mixed-structure marker and
fewer than 2 extreme-negative markers, `analyze` returns exactly
`(Neutral, 0.85, method="balanced_structure_detected")` for every model
capability — the result does not depend on the model, so the
statistical model is never consulted. -/
theorem C2_balanced_structure (m : Model) (t : String)
    (hb : isBlank t = false)
    (hmix : hasAnyOf mixed_indicators (asciiLower t) = true)
    (hext : countMatches extreme_negative_words (asciiLower t) < 2) :
    analyze m t = ⟨.Neutral, 0.85, "balanced_structure_detected"⟩ := by
  simp [analyze, hb, balancedFires, hmix, hext]

theorem C2_balanced_structure_witness :
    isBlank "Good communication but struggles with deadlines" = false
      ∧ hasAnyOf mixed_indicators
          (asciiLower "Good communication but struggles with deadlines") = true
      ∧ countMatches extreme_negative_words
          (asciiLower "Good communication but struggles with deadlines") < 2
      ∧ analyze (some fun _ => some ⟨"NEGATIVE", 1⟩)
          "Good communication but struggles with deadlines"
          = ⟨.Neutral, 0.85, "balanced_structure_detected"⟩ :=
  ⟨by decide, by decide, by decide,
    C2_balanced_structure (some fun _ => some ⟨"NEGATIVE", 1⟩)
      "Good communication but struggles with deadlines"
      (by decide) (by decide) (by decide)⟩

/-- C6: on non-blank input with no mixed-structure marker, at least one
success word, at least one limitation word, and none of the four
hard-negative substrings, `analyze` returns exactly
`(Neutral, 0.80, method="success_with_limitation")` for every model
capability — a terminal verdict taken before any model call. -/
theorem C6_success_with_limitation (m : Model) (t : String)
    (hb : isBlank t = false)
    (hmix : hasAnyOf mixed_indicators (asciiLower t) = false)
    (hs : hasAnyOf success_words (asciiLower t) = true)
    (hl : hasAnyOf limitation_words (asciiLower t) = true)
    (hn : hasAnyOf hard_negative_words (asciiLower t) = false) :
    analyze m t = ⟨.Neutral, 0.80, "success_with_limitation"⟩ := by
  simp [analyze, hb, balancedFires, successLimFires, hmix, hs, hl, hn]

theorem C6_success_with_limitation_witness :
    isBlank "completed the task, did not attend the session" = false
      ∧ hasAnyOf mixed_indicators
          (asciiLower "completed the task, did not attend the session") = false
      ∧ hasAnyOf success_words
          (asciiLower "completed the task, did not attend the session") = true
      ∧ hasAnyOf limitation_words
          (asciiLower "completed the task, did not attend the session") = true
      ∧ hasAnyOf hard_negative_words
          (asciiLower "completed the task, did not attend the session") = false
      ∧ analyze (some fun _ => some ⟨"NEGATIVE", 1⟩)
          "completed the task, did not attend the session"
          = ⟨.Neutral, 0.80, "success_with_limitation"⟩ :=
  ⟨by decide, by decide, by decide, by decide, by decide,
    C6_success_with_limitation (some fun _ => some ⟨"NEGATIVE", 1⟩)
      "completed the task, did not attend the session"
      (by decide) (by decide) (by decide) (by decide) (by decide)⟩

/-- C5: when the gate yields no terminal verdict and the model is
absent or its inference failed, the keyword backup ladder decides:
negative evidence (threshold 3) before positive evidence before neutral
evidence, with the always-defined default-neutral fallback. -/
theorem C5_keyword_backup (m : Model) (t : String)
    (hb : isBlank t = false)
    (hbal : balancedFires (asciiLower t) = false)
    (hsl : successLimFires (asciiLower t) = false)
    (hm : m = none ∨ ∃ f, m = some f ∧ f (modelInput t) = none) :
    (3 ≤ countMatches negative_indicators (asciiLower t) →
        analyze m t = ⟨.Negative, 0.85, "keyword_backup_strong"⟩)
    ∧ (countMatches negative_indicators (asciiLower t) < 3 →
        3 ≤ countMatches positive_indicators (asciiLower t) →
        analyze m t = ⟨.Positive, 0.85, "keyword_backup_strong"⟩)
    ∧ (countMatches negative_indicators (asciiLower t) < 3 →
        countMatches positive_indicators (asciiLower t) < 3 →
        3 ≤ countMatches neutral_indicators (asciiLower t) →
        analyze m t = ⟨.Neutral, 0.75, "keyword_backup_neutral"⟩)
    ∧ (countMatches negative_indicators (asciiLower t) < 3 →
        countMatches positive_indicators (asciiLower t) < 3 →
        countMatches neutral_indicators (asciiLower t) < 3 →
        analyze m t = ⟨.Neutral, 0.50, "default_neutral"⟩) := by
  have key : analyze m t
      = stageB (countMatches negative_indicators (asciiLower t))
          (countMatches positive_indicators (asciiLower t))
          (countMatches neutral_indicators (asciiLower t)) := by
    rcases hm with rfl | ⟨f, rfl, hf⟩
    · simp [analyze, hb, hbal, hsl]
    · simp [analyze, hb, hbal, hsl, hf]
  rw [key]
  unfold stageB
  refine ⟨fun h1 => ?_, fun h1 h2 => ?_, fun h1 h2 h3 => ?_,
    fun h1 h2 h3 => ?_⟩
  · rw [if_pos h1]
  · rw [if_neg (by omega), if_pos h2]
  · rw [if_neg (by omega), if_neg (by omega), if_pos h3]
  · rw [if_neg (by omega), if_neg (by omega), if_neg (by omega)]

theorem C5_keyword_backup_witness :
    isBlank "weak, poor, lacking, inadequate performance" = false
      ∧ balancedFires (asciiLower "weak, poor, lacking, inadequate performance")
          = false
      ∧ successLimFires (asciiLower "weak, poor, lacking, inadequate performance")
          = false
      ∧ 3 ≤ countMatches negative_indicators
          (asciiLower "weak, poor, lacking, inadequate performance")
      ∧ analyze none "weak, poor, lacking, inadequate performance"
          = ⟨.Negative, 0.85, "keyword_backup_strong"⟩ :=
  ⟨by decide, by decide, by decide, by decide,
    (C5_keyword_backup none "weak, poor, lacking, inadequate performance"
      (by decide) (by decide) (by decide) (Or.inl rfl)).1 (by decide)⟩

/-- C4: when the gate yields no terminal verdict and the model returns
a verdict, strong keyword disagreement (4+ opposite markers) overrides
it to `(_, 0.90, method="keyword_strong_override")`; otherwise the
mapped model label is returned with the model's own score verbatim and
`method="transformer_primary"` — no hypothesis on the score (in
particular none involving `model_confidence_threshold`) gates the trust
branch. -/
theorem C4_stage_a (f : String → Option ModelOut) (t : String)
    (out : ModelOut)
    (hb : isBlank t = false)
    (hbal : balancedFires (asciiLower t) = false)
    (hsl : successLimFires (asciiLower t) = false)
    (hf : f (modelInput t) = some out) :
    (out.label = "POSITIVE" →
        4 ≤ countMatches negative_indicators (asciiLower t) →
        analyze (some f) t = ⟨.Negative, 0.90, "keyword_strong_override"⟩)
    ∧ (out.label = "NEGATIVE" →
        4 ≤ countMatches positive_indicators (asciiLower t) →
        analyze (some f) t = ⟨.Positive, 0.90, "keyword_strong_override"⟩)
    ∧ (out.label = "POSITIVE" →
        countMatches negative_indicators (asciiLower t) < 4 →
        analyze (some f) t = ⟨.Positive, out.score, "transformer_primary"⟩)
    ∧ (out.label = "NEGATIVE" →
        countMatches positive_indicators (asciiLower t) < 4 →
        analyze (some f) t = ⟨.Negative, out.score, "transformer_primary"⟩) := by
  refine ⟨fun hl hc => ?_, fun hl hc => ?_, fun hl hc => ?_,
    fun hl hc => ?_⟩
  · simp [analyze, hb, hbal, hsl, hf, hl, hc]
  · simp [analyze, hb, hbal, hsl, hf, hl, hc]
  · have hc' : ¬ 4 ≤ countMatches negative_indicators (asciiLower t) := by
      omega
    simp [analyze, hb, hbal, hsl, hf, hl, hc']
  · have hc' : ¬ 4 ≤ countMatches positive_indicators (asciiLower t) := by
      omega
    simp [analyze, hb, hbal, hsl, hf, hl, hc']

theorem C4_stage_a_witness :
    isBlank "The presentation happened on Tuesday" = false
      ∧ balancedFires (asciiLower "The presentation happened on Tuesday")
          = false
      ∧ successLimFires (asciiLower "The presentation happened on Tuesday")
          = false
      ∧ countMatches negative_indicators
          (asciiLower "The presentation happened on Tuesday") < 4
      ∧ ((3 : ℚ)/10) < model_confidence_threshold
      ∧ analyze (some fun _ => some ⟨"POSITIVE", 3/10⟩)
          "The presentation happened on Tuesday"
          = ⟨.Positive, 3/10, "transformer_primary"⟩ :=
  ⟨by decide, by decide, by decide, by decide,
    by with_unfolding_all decide,
    (C4_stage_a (fun _ => some ⟨"POSITIVE", 3/10⟩)
        "The presentation happened on Tuesday" ⟨"POSITIVE", 3/10⟩
        (by decide) (by decide) (by decide) rfl).2.2.1 rfl (by decide)⟩

/-- C3 counterexample: the input below is non-blank, contains a
mixed-structure marker ("but", "without") and 2 extreme-negative
markers ("terrible", "awful"), yet `analyze` resolves it with
`method="success_with_limitation"` — a method the claim excludes — so
the gate does not fall straight through to the model/keyword stages. -/
theorem C3_counterexample :
    isBlank "terrible awful but completed the task without help" = false
      ∧ hasAnyOf mixed_indicators
          (asciiLower "terrible awful but completed the task without help")
          = true
      ∧ 2 ≤ countMatches extreme_negative_words
          (asciiLower "terrible awful but completed the task without help")
      ∧ (analyze none
          "terrible awful but completed the task without help").method
          = "success_with_limitation"
      ∧ (analyze none
          "terrible awful but completed the task without help").method ∉
          ["transformer_primary", "keyword_strong_override",
           "keyword_backup_strong", "keyword_backup_neutral",
           "default_neutral"] := by
  decide

/-- C3 amended: on non-blank input with a mixed-structure marker and at
least 2 extreme-negative markers, the balanced-structure branch never
resolves the classification (`method ≠ "balanced_structure_detected"`),
and the verdict falls through to the success-with-limitation check and
then the model/keyword stages, so the method is one of
`success_with_limitation`, `keyword_strong_override`,
`transformer_primary`, `keyword_backup_strong`,
`keyword_backup_neutral`, `default_neutral`. -/
theorem C3_extreme_fall_through (m : Model) (t : String)
    (hb : isBlank t = false)
    (hmix : hasAnyOf mixed_indicators (asciiLower t) = true)
    (hext : 2 ≤ countMatches extreme_negative_words (asciiLower t)) :
    (analyze m t).method ≠ "balanced_structure_detected"
      ∧ (analyze m t).method ∈
          ["success_with_limitation", "keyword_strong_override",
           "transformer_primary", "keyword_backup_strong",
           "keyword_backup_neutral", "default_neutral"] := by
  have hbal : balancedFires (asciiLower t) = false := by
    unfold balancedFires
    simp [hmix]
    omega
  have stage_mem : ∀ n p u : Nat, (stageB n p u).method ∈
      ["success_with_limitation", "keyword_strong_override",
       "transformer_primary", "keyword_backup_strong",
       "keyword_backup_neutral", "default_neutral"] := by
    intro n p u
    rcases stageB_method n p u with h | h | h <;> simp [h]
  have main : (analyze m t).method ∈
      ["success_with_limitation", "keyword_strong_override",
       "transformer_primary", "keyword_backup_strong",
       "keyword_backup_neutral", "default_neutral"] := by
    by_cases hsl : successLimFires (asciiLower t) = true
    · have he : analyze m t = ⟨.Neutral, 0.80, "success_with_limitation"⟩ := by
        rcases m with _ | f <;> simp [analyze, hb, hbal, hsl]
      rw [he]
      simp
    · have hsl' : successLimFires (asciiLower t) = false := by
        simpa using hsl
      rcases m with _ | f
      · have he : analyze none t
            = stageB (countMatches negative_indicators (asciiLower t))
                (countMatches positive_indicators (asciiLower t))
                (countMatches neutral_indicators (asciiLower t)) := by
          simp [analyze, hb, hbal, hsl']
        rw [he]
        exact stage_mem _ _ _
      · rcases hf : f (modelInput t) with _ | out
        · have he : analyze (some f) t
              = stageB (countMatches negative_indicators (asciiLower t))
                  (countMatches positive_indicators (asciiLower t))
                  (countMatches neutral_indicators (asciiLower t)) := by
            simp [analyze, hb, hbal, hsl', hf]
          rw [he]
          exact stage_mem _ _ _
        · by_cases h1 : out.label = "POSITIVE"
              ∧ 4 ≤ countMatches negative_indicators (asciiLower t)
          · have he : analyze (some f) t
                = ⟨.Negative, 0.90, "keyword_strong_override"⟩ := by
              simp [analyze, hb, hbal, hsl', hf, h1]
            rw [he]
            simp
          · by_cases h2 : out.label = "NEGATIVE"
                ∧ 4 ≤ countMatches positive_indicators (asciiLower t)
            · have he : analyze (some f) t
                  = ⟨.Positive, 0.90, "keyword_strong_override"⟩ := by
                simp [analyze, hb, hbal, hsl', hf, h1, h2]
              rw [he]
              simp
            · by_cases h3 : out.label = "POSITIVE"
              · have hn4 : countMatches negative_indicators (asciiLower t) < 4 := by
                  by_contra hcon
                  exact h1 ⟨h3, by omega⟩
                have he : analyze (some f) t
                    = ⟨.Positive, out.score, "transformer_primary"⟩ := by
                  simp [analyze, hb, hbal, hsl', hf, h1, h2, h3, hn4]
                rw [he]
                simp
              · by_cases h4 : out.label = "NEGATIVE"
                · have hp4 : countMatches positive_indicators (asciiLower t) < 4 := by
                    by_contra hcon
                    exact h2 ⟨h4, by omega⟩
                  have he : analyze (some f) t
                      = ⟨.Negative, out.score, "transformer_primary"⟩ := by
                    simp [analyze, hb, hbal, hsl', hf, h1, h2, h3, h4, hp4]
                  rw [he]
                  simp
                · have he : analyze (some f) t
                      = stageB (countMatches negative_indicators (asciiLower t))
                          (countMatches positive_indicators (asciiLower t))
                          (countMatches neutral_indicators (asciiLower t)) := by
                    simp [analyze, hb, hbal, hsl', hf, h1, h2, h3, h4]
                  rw [he]
                  exact stage_mem _ _ _
  refine ⟨?_, main⟩
  intro hcontra
  rw [hcontra] at main
  simp at main

theorem C3_extreme_fall_through_witness :
    isBlank "Terrible and awful, completely failed, but tries hard" = false
      ∧ hasAnyOf mixed_indicators
          (asciiLower "Terrible and awful, completely failed, but tries hard")
          = true
      ∧ 2 ≤ countMatches extreme_negative_words
          (asciiLower "Terrible and awful, completely failed, but tries hard")
      ∧ ((analyze none
            "Terrible and awful, completely failed, but tries hard").method
            ≠ "balanced_structure_detected"
          ∧ (analyze none
              "Terrible and awful, completely failed, but tries hard").method ∈
              ["success_with_limitation", "keyword_strong_override",
               "transformer_primary", "keyword_backup_strong",
               "keyword_backup_neutral", "default_neutral"]) :=
  ⟨by decide, by decide, by decide,
    C3_extreme_fall_through none
      "Terrible and awful, completely failed, but tries hard"
      (by decide) (by decide) (by decide)⟩

/-- Exhaustive shape of `analyze` results: one of the five constant
verdicts, a transformer verdict carrying the model's own score, or a
keyword-backup verdict. -/
theorem analyze_shape (m : Model) (t : String) :
    analyze m t = ⟨.Neutral, 0, "empty_text"⟩
      ∨ analyze m t = ⟨.Neutral, 0.85, "balanced_structure_detected"⟩
      ∨ analyze m t = ⟨.Neutral, 0.80, "success_with_limitation"⟩
      ∨ analyze m t = ⟨.Negative, 0.90, "keyword_strong_override"⟩
      ∨ analyze m t = ⟨.Positive, 0.90, "keyword_strong_override"⟩
      ∨ (∃ f out, m = some f ∧ f (modelInput t) = some out
          ∧ (analyze m t = ⟨.Positive, out.score, "transformer_primary"⟩
              ∨ analyze m t = ⟨.Negative, out.score, "transformer_primary"⟩))
      ∨ analyze m t
          = stageB (countMatches negative_indicators (asciiLower t))
              (countMatches positive_indicators (asciiLower t))
              (countMatches neutral_indicators (asciiLower t)) := by
  by_cases hb : isBlank t = true
  · exact Or.inl (by simp [analyze, hb])
  · have hb' : isBlank t = false := by
      simpa using hb
    by_cases hbal : balancedFires (asciiLower t) = true
    · refine Or.inr (Or.inl ?_)
      rcases m with _ | f <;> simp [analyze, hb', hbal]
    · have hbal' : balancedFires (asciiLower t) = false := by
        simpa using hbal
      by_cases hsl : successLimFires (asciiLower t) = true
      · refine Or.inr (Or.inr (Or.inl ?_))
        rcases m with _ | f <;> simp [analyze, hb', hbal', hsl]
      · have hsl' : successLimFires (asciiLower t) = false := by
          simpa using hsl
        rcases m with _ | f
        · refine Or.inr (Or.inr (Or.inr (Or.inr (Or.inr (Or.inr ?_)))))
          simp [analyze, hb', hbal', hsl']
        · rcases hf : f (modelInput t) with _ | out
          · refine Or.inr (Or.inr (Or.inr (Or.inr (Or.inr (Or.inr ?_)))))
            simp [analyze, hb', hbal', hsl', hf]
          · by_cases h1 : out.label = "POSITIVE"
                ∧ 4 ≤ countMatches negative_indicators (asciiLower t)
            · refine Or.inr (Or.inr (Or.inr (Or.inl ?_)))
              simp [analyze, hb', hbal', hsl', hf, h1]
            · by_cases h2 : out.label = "NEGATIVE"
                  ∧ 4 ≤ countMatches positive_indicators (asciiLower t)
              · refine Or.inr (Or.inr (Or.inr (Or.inr (Or.inl ?_))))
                simp [analyze, hb', hbal', hsl', hf, h1, h2]
              · by_cases h3 : out.label = "POSITIVE"
                · have hn4 : countMatches negative_indicators (asciiLower t)
                      < 4 := by
                    by_contra hcon
                    exact h1 ⟨h3, by omega⟩
                  refine Or.inr (Or.inr (Or.inr (Or.inr (Or.inr (Or.inl
                    ⟨f, out, rfl, hf, Or.inl ?_⟩)))))
                  simp [analyze, hb', hbal', hsl', hf, h1, h2, h3, hn4]
                · by_cases h4 : out.label = "NEGATIVE"
                  · have hp4 : countMatches positive_indicators (asciiLower t)
                        < 4 := by
                      by_contra hcon
                      exact h2 ⟨h4, by omega⟩
                    refine Or.inr (Or.inr (Or.inr (Or.inr (Or.inr (Or.inl
                      ⟨f, out, rfl, hf, Or.inr ?_⟩)))))
                    simp [analyze, hb', hbal', hsl', hf, h1, h2, h3, h4, hp4]
                  · refine Or.inr (Or.inr (Or.inr (Or.inr (Or.inr (Or.inr
                      ?_)))))
                    simp [analyze, hb', hbal', hsl', hf, h1, h2, h3, h4]

/-- C1: `analyze` is total — for every input string and every state of
the model capability (absent, present, or raising during inference),
it returns a result whose label is one of Positive, Negative, Neutral
and whose confidence lies in `[0,1]`, under the hypothesis that the
model, when it returns, yields a score in `[0,1]`.  No error propagates
to the caller: the embedding itself is a total function, with inference
faults modelled by the inner `Option` and absorbed by the backup path. -/
theorem C1_totality (m : Model) (t : String)
    (h : ∀ (f : String → Option ModelOut) (s : String) (out : ModelOut),
        m = some f → f s = some out → 0 ≤ out.score ∧ out.score ≤ 1) :
    ((analyze m t).label = Label.Positive
        ∨ (analyze m t).label = Label.Negative
        ∨ (analyze m t).label = Label.Neutral)
      ∧ 0 ≤ (analyze m t).confidence ∧ (analyze m t).confidence ≤ 1 := by
  refine ⟨?_, ?_⟩
  · rcases analyze m t with ⟨l, c, me⟩
    rcases l <;> simp
  · rcases analyze_shape m t with he | he | he | he | he | ⟨f, out, hm, hf, he | he⟩ | he
    · rw [he]
      norm_num
    · rw [he]
      norm_num
    · rw [he]
      norm_num
    · rw [he]
      norm_num
    · rw [he]
      norm_num
    · rw [he]
      exact h f (modelInput t) out hm hf
    · rw [he]
      exact h f (modelInput t) out hm hf
    · rw [he]
      exact stageB_confidence _ _ _

theorem C1_totality_witness :
    ((analyze (some fun _ => some ⟨"POSITIVE", 1/2⟩) "needs work, but ok").label
          = Label.Positive
        ∨ (analyze (some fun _ => some ⟨"POSITIVE", 1/2⟩)
            "needs work, but ok").label = Label.Negative
        ∨ (analyze (some fun _ => some ⟨"POSITIVE", 1/2⟩)
            "needs work, but ok").label = Label.Neutral)
      ∧ 0 ≤ (analyze (some fun _ => some ⟨"POSITIVE", 1/2⟩)
            "needs work, but ok").confidence
      ∧ (analyze (some fun _ => some ⟨"POSITIVE", 1/2⟩)
            "needs work, but ok").confidence ≤ 1 :=
  C1_totality (some fun _ => some ⟨"POSITIVE", 1/2⟩) "needs work, but ok"
    (by
      rintro f s out hm hout
      injection hm with hm
      subst hm
      injection hout with hout
      subst hout
      norm_num)

/-- C8: the statistical model stage passes at most the first 512
characters of the text to the underlying model — the argument handed to
the model capability has length at most 512, and the whole result of
`analyze` depends on the model only through its value on that truncated
input, so longer strings cannot reach the model or cause a fault. -/
theorem C8_truncation (t : String) :
    (modelInput t).length ≤ 512
      ∧ ∀ f g : String → Option ModelOut,
          f (modelInput t) = g (modelInput t) →
          analyze (some f) t = analyze (some g) t := by
  constructor
  · show (t.data.take 512).length ≤ 512
    simp [List.length_take]
  · intro f g hfg
    simp only [analyze, hfg]

set_option maxRecDepth 10000 in
theorem C8_truncation_witness :
    (modelInput (String.mk (List.replicate 600 'a'))).length ≤ 512
      ∧ analyze (some fun _ => some ⟨"POSITIVE", 1⟩)
            (String.mk (List.replicate 600 'a'))
          = analyze
            (some fun s =>
              if s.length ≤ 512 then some ⟨"POSITIVE", 1⟩ else none)
            (String.mk (List.replicate 600 'a')) :=
  ⟨(C8_truncation (String.mk (List.replicate 600 'a'))).1,
    (C8_truncation (String.mk (List.replicate 600 'a'))).2
      (fun _ => some ⟨"POSITIVE", 1⟩)
      (fun s => if s.length ≤ 512 then some ⟨"POSITIVE", 1⟩ else none)
      (by with_unfolding_all decide)⟩

/-- C10: with the model capability absent, `analyze` depends only on
the lowercased text: classifying a string and classifying its lowercase
folding give the same result, because the blank check is
casing-independent and every other decision is computed over the
lowercase folding. -/
theorem C10_case_insensitive (s : String) :
    analyze none s = analyze none (asciiLower s) := by
  simp only [analyze, isBlank_asciiLower, asciiLower_idem]

/-- C7 counterexample: the lexicons are not in lockstep — `"terrible"`
is a negative indicator of the legacy `score_to_label` in `app.py` but
not of `SentimentAnalyzer._setup_keyword_indicators`. -/
theorem C7_counterexample :
    "terrible" ∈ app_negative_indicators
      ∧ "terrible" ∉ negative_indicators := by
  decide

/-- C7 amended: the negative, positive, and neutral indicator lists of
the classification pipeline differ from those of the legacy scoring
path in `app.py` — every one of the three pairs diverges (witnessed by
"terrible", "good" and "fair", each present in the legacy list and
absent from the pipeline's list). -/
theorem C7_lexicons_diverge :
    negative_indicators ≠ app_negative_indicators
      ∧ positive_indicators ≠ app_positive_indicators
      ∧ neutral_indicators ≠ app_neutral_indicators
      ∧ ("terrible" ∈ app_negative_indicators
          ∧ "terrible" ∉ negative_indicators)
      ∧ ("good" ∈ app_positive_indicators ∧ "good" ∉ positive_indicators)
      ∧ ("fair" ∈ app_neutral_indicators ∧ "fair" ∉ neutral_indicators) := by
  decide
